import Mathlib

/-!
Shallow embedding of the SCE survey import engine
(`src/SCE/importer.py`, `src/SCE/pandas_helpers.py`).

Missing values (pandas `NaN`) are modelled by `Option`; a data column is a
`List` of optional values, a keyed column is a list of
`(respondent id, wave id) × value` pairs in sorted index order.  Magnitudes
are rationals, categorical codes are integers.
-/

namespace SCE

/-! ### Value reconciliation primitives (`pandas_helpers.py`) -/

/-- Error message raised by `tile_const` (`pandas_helpers.py`, line 54). -/
def naError : String := "Multiple non-NA values encountered"

/-- The non-missing values of respondent `i`'s group, in index order.
Embeds `values.dropna()` restricted to one group of `values.groupby(by)`. -/
def groupVals (rows : List ((Nat × Nat) × Option ℤ)) (i : Nat) : List ℤ :=
  rows.filterMap (fun r => if r.1.1 = i then r.2 else none)

/-- `tile_const` (`pandas_helpers.py`, lines 31-60) for a single keyed column:
drop missing entries, raise `ValueError` when any respondent group of the
remaining entries has size ≠ 1 (i.e. holds two or more non-missing entries),
otherwise broadcast each group's first value to all of the respondent's rows
(`values.groupby(by).first().reindex(index, level=by)`). -/
def tile_const (rows : List ((Nat × Nat) × Option ℤ)) :
    Except String (List ((Nat × Nat) × Option ℤ)) :=
  if rows.any (fun r => decide (2 ≤ (groupVals rows r.1.1).length)) then
    Except.error naError
  else
    Except.ok (rows.map (fun r => (r.1, (groupVals rows r.1.1).head?)))

/-! ### Sign normalizer (`importer.py`, `flip_sign`, lines 10-33) -/

/-- `fillna(0.0)` on one value. -/
def fillna0 (x : Option ℚ) : ℚ := x.getD 0

/-- The magnitudes of the rows flagged `negative`, missing treated as `0`:
embeds `df.loc[negative, varname].fillna(0.0)`. -/
def flaggedVals (rows : List (Bool × Option ℚ)) : List ℚ :=
  rows.filterMap (fun r => if r.1 then some (fillna0 r.2) else none)

/-- `flip_sign` (`importer.py`, lines 10-33): a row is a
(decrease-flag, magnitude) pair.  If the flagged magnitudes (missing as 0)
are all ≤ 0 the data is left unchanged; else if they are all ≥ 0 the flagged
magnitudes are multiplied by −1 (`df.loc[negative, varname] *= -1`);
otherwise the sign is ambiguous, a warning is logged and nothing changes. -/
def flip_sign (rows : List (Bool × Option ℚ)) : List (Bool × Option ℚ) :=
  if (flaggedVals rows).all (fun v => decide (v ≤ 0)) then
    rows
  else if (flaggedVals rows).all (fun v => decide (0 ≤ v)) then
    rows.map (fun r => if r.1 then (r.1, r.2.map (fun v => -v)) else r)
  else
    rows

/-! ### House prices (`importer.py`, lines 266-274)

`df_full["Q31v2part2"]` is the magnitude column after `flip_sign` with the
decrease flag `df["Q31v2"] == 3`; the extract column `house_price_change`
is assigned `df[varname]`, i.e. the raw input column. -/

/-- The pair (full-table `Q31v2part2` column, extract `house_price_change`
column) computed from raw rows of (`Q31v2`, `Q31v2part2`) pairs. -/
def house_price_cols (rows : List (Option ℤ × Option ℚ)) :
    List (Option ℚ) × List (Option ℚ) :=
  let flagged := rows.map (fun r => (decide (r.1 = some 3), r.2))
  ((flip_sign flagged).map (fun r => r.2), rows.map (fun r => r.2))

/-! ### Household composition (`importer.py`, lines 461-477) -/

/-- One raw row of the composition block: key, repeat-respondent change
question `D1`, the `Q45new_*` block and the `D2new_*` block (matching column
lists of optional counts). -/
structure HHRow where
  id : Nat
  wave : Nat
  D1 : Option ℤ
  Q45new : List (Option ℚ)
  D2new : List (Option ℚ)

/-- A fully non-missing block, or `none` if any entry is missing: embeds
which rows survive `df_comp.dropna()` (drop rows holding any NA). -/
def seqOpts : List (Option ℚ) → Option (List ℚ)
  | [] => some []
  | none :: _ => none
  | some x :: rest => (seqOpts rest).map (fun l => x :: l)

/-- The composition block used for a row: `D2new_*` where
`hh_changed = (df_full["D1"] == 2)` holds, else the raw `Q45new_*` block
(`df_comp.loc[hh_changed, columns] = d.loc[hh_changed]`). -/
def comp_source (r : HHRow) : List (Option ℚ) :=
  if r.D1 = some 2 then r.D2new else r.Q45new

/-- Forward fill over the full sorted index: embeds
`df_comp.dropna().reindex(df_full.index, method="ffill")` — each row takes
its own block when complete, else the most recent complete block earlier in
the index (regardless of which respondent it belongs to), else all-missing. -/
def ffill (carry : Option (List ℚ)) :
    List (List (Option ℚ)) → List (Option (List ℚ))
  | [] => []
  | c :: rest =>
    match seqOpts c with
    | some v => some v :: ffill (some v) rest
    | none => carry :: ffill carry rest

/-- The `Q45new_*` block written back into `df_full` (lines 468-477), one
entry per row in sorted (id, wave) order; `none` stands for an all-missing
block. -/
def hh_composition (rows : List HHRow) : List (Option (List ℚ)) :=
  ffill none (rows.map comp_source)

/-! ### Demographic block (`importer.py`, lines 373-454)

Respondent-constant attributes go through `tile_const`; the race block
`Q35_*` is tiled into `races`, but `df_full` receives the raw block
(`df_full = pd.concat((df_full, d), axis=1)`, line 394), while `races` only
feeds the extract's `black` column. -/

/-- One raw demographic row (a two-column `Q35_*` race block). -/
structure DemoRow where
  id : Nat
  wave : Nat
  Q32 : Option ℤ
  Q33 : Option ℤ
  Q34 : Option ℤ
  Q35_1 : Option ℤ
  Q35_2 : Option ℤ
  Q36 : Option ℤ
  Q46 : Option ℤ

/-- Project one keyed column out of the demographic rows. -/
def colOf (rows : List DemoRow) (f : DemoRow → Option ℤ) :
    List ((Nat × Nat) × Option ℤ) :=
  rows.map (fun r => ((r.id, r.wave), f r))

/-- Non-missing rows of respondent `i` in the `Q35_*` block: DataFrame
`dropna()` keeps a row only when every block column is non-missing. -/
def groupRows35 (rows : List DemoRow) (i : Nat) : List (ℤ × ℤ) :=
  rows.filterMap (fun r =>
    if r.id = i then
      match r.Q35_1, r.Q35_2 with
      | some a, some b => some (a, b)
      | _, _ => none
    else none)

/-- The tiled (broadcast) value of a keyed column for respondent `i`. -/
def tileVal (col : List ((Nat × Nat) × Option ℤ)) (i : Nat) : Option ℤ :=
  (groupVals col i).head?

/-- Whether any of the `tile_const` calls of the demographic block raises
(the run aborts on the first one; which call raises is collapsed into a
single condition here, preserving the abort/no-abort semantics). -/
def demo_error (rows : List DemoRow) : Bool :=
  ([colOf rows (fun r => r.Q32), colOf rows (fun r => r.Q33),
    colOf rows (fun r => r.Q34), colOf rows (fun r => r.Q36),
    colOf rows (fun r => r.Q46)].any
    (fun col => col.any (fun r => decide (2 ≤ (groupVals col r.1.1).length))))
  || rows.any (fun r => decide (2 ≤ (groupRows35 rows r.id).length))

/-- One full-table demographic row: `Q32`, `Q33`, `Q34`, `Q36`, `Q46` are
tiled; the `Q35_*` columns are the raw input block (line 394 concatenates
`d`, not `races`). -/
def full_demo_row (rows : List DemoRow) (r : DemoRow) : DemoRow :=
  ⟨r.id, r.wave,
   tileVal (colOf rows (fun x => x.Q32)) r.id,
   tileVal (colOf rows (fun x => x.Q33)) r.id,
   tileVal (colOf rows (fun x => x.Q34)) r.id,
   r.Q35_1, r.Q35_2,
   tileVal (colOf rows (fun x => x.Q36)) r.id,
   tileVal (colOf rows (fun x => x.Q46)) r.id⟩

/-- The extract `black` column for one row: `races["Q35_2"]`, i.e. the tiled
race block's second column. -/
def extract_black (rows : List DemoRow) (r : DemoRow) : Option ℤ :=
  ((groupRows35 rows r.id).head?).map (fun p => p.2)

/-- The demographic block of `process_sce`: abort when any `tile_const`
raises, otherwise produce the full-table rows and the extract `black`
column. -/
def process_demo (rows : List DemoRow) :
    Except String (List DemoRow × List (Option ℤ)) :=
  if demo_error rows then Except.error naError
  else Except.ok (rows.map (full_demo_row rows), rows.map (extract_black rows))

/-! ### Employment assertions (`importer.py`, lines 158-181) -/

/-- One row of the employment block: `Q15` (looking for job, 1 = yes,
2 = no), `Q16` (months unemployed), `Q19` (months out of work). -/
structure EmpRow where
  Q15 : Option ℤ
  Q16 : Option ℚ
  Q19 : Option ℚ

/-- The employment block of `process_sce`: `Q15`, `Q16`, `Q19` are copied
verbatim into the full table; the two `assert` statements (lines 165 and
178) abort the run unless `Q16` is missing on every row with `Q15 != 1` and
`Q19` is missing on every row with `Q15 != 2` (a missing `Q15` compares as
not-equal, exactly like pandas `NaN != 1`). -/
def process_employment (rows : List EmpRow) : Except String (List EmpRow) :=
  if rows.all (fun r => decide (r.Q15 = some 1 ∨ r.Q16 = none)) then
    if rows.all (fun r => decide (r.Q15 = some 2 ∨ r.Q19 = none)) then
      Except.ok rows
    else
      Except.error "AssertionError: Q19"
  else
    Except.error "AssertionError: Q16"

/-! ### Number of kids (`importer.py`, lines 479-485) -/

/-- Pandas `DataFrame.sum(axis=1, min_count=k)` over one row: the sum of
the non-missing entries, or missing when fewer than `k` entries are
non-missing. -/
def sum_min_count (k : Nat) (xs : List (Option ℚ)) : Option ℚ :=
  let vs := xs.filterMap id
  if k ≤ vs.length then some vs.sum else none

/-- `num_kids = df_full[["Q45new_2", ..., "Q45new_5"]].sum(axis=1, min_count=4)`
for one row. -/
def num_kids (c2 c3 c4 c5 : Option ℚ) : Option ℚ :=
  sum_min_count 4 [c2, c3, c4, c5]

/-! ### Total 0/1 indicator flags (`importer.py`, lines 138, 160, 463-464) -/

/-- `(df[["Q10_1", "Q10_2"]] == 1).any(axis=1).astype(np.uint8)` for one
row (pandas `NaN == 1` is `False`). -/
def working (q10_1 q10_2 : Option ℤ) : ℤ :=
  if q10_1 = some 1 ∨ q10_2 = some 1 then 1 else 0

/-- `(df_full["Q15"] == 1).astype(int)` for one row. -/
def looking_for_job (q15 : Option ℤ) : ℤ :=
  if q15 = some 1 then 1 else 0

/-- `(df_full["D1"] == 2).astype(np.uint8)` for one row. -/
def hh_changed_flag (d1 : Option ℤ) : ℤ :=
  if d1 = some 2 then 1 else 0

/-! ### Binary recode flags (`importer.py`, lines 147-148, 398-401, 428-429) -/

/-- Pandas `Series.map(table, na_action="ignore")` on one value: look the
raw code up in the recode table, missing when absent. -/
def recode (table : List (ℤ × ℤ)) (x : Option ℤ) : Option ℤ :=
  x.bind (fun v => table.lookup v)

/-- `df_full["Q12new"].map({1: 0, 2: 1}, na_action="ignore")`. -/
def self_employed (q12new : Option ℤ) : Option ℤ :=
  recode [(1, 0), (2, 1)] q12new

/-- `df_full["Q43"].map({1: 1, 2: 0, 3: 0}, na_action="ignore")`. -/
def owner (q43 : Option ℤ) : Option ℤ :=
  recode [(1, 1), (2, 0), (3, 0)] q43

/-- `np.where(df_full["Q36"].notna(), df_full["Q36"].isin((5, 6, 7, 8)), np.nan)`:
missing stays missing, any non-missing code maps to the 0/1 result of the
set-membership test. -/
def college (q36 : Option ℤ) : Option ℤ :=
  q36.map (fun v => if v = 5 ∨ v = 6 ∨ v = 7 ∨ v = 8 then 1 else 0)

/-! ### Income-rank fiscal year (`importer.py`, lines 544-553) -/

/-- The fiscal year assigned to an interview date (year `y`, month `m`,
day `d`):  `beg_month = df["date"] - pd.offsets.MonthBegin()` rolls back to
the month's start, and to the *previous* month's start when the date is
already the first of a month; `frac = (beg_month.dt.month - 1) / 11`; the
assigned year is `df["date"].dt.year - (frac < 0.5)`. -/
def fiscal_year (y : ℤ) (m d : Nat) : ℤ :=
  let bm : Nat := if d = 1 then (if m = 1 then 12 else m - 1) else m
  if ((bm : ℚ) - 1) / 11 < 1 / 2 then y - 1 else y

/-- `merge_inc_rank` join step: each panel row (interview date as
(year, month, day), income bracket) receives the rank of the first record
of the external table matching the (assigned fiscal year, bracket) key
(left join, missing when no record matches). -/
def merge_inc_rank (rows : List ((ℤ × Nat × Nat) × ℤ))
    (ranks : List (ℤ × ℤ × ℚ)) : List (Option ℚ) :=
  rows.map (fun r =>
    (ranks.find? (fun t =>
      decide (t.1 = fiscal_year r.1.1 r.1.2.1 r.1.2.2 ∧ t.2.1 = r.2))).map
      (fun t => t.2.2))

end SCE

namespace SCE

/-- Claim C5: `flip_sign` restricted to decrease-flagged rows, missing
magnitudes treated as 0: if all flagged magnitudes are ≤ 0 nothing changes;
if all are ≥ 0 exactly the flagged magnitudes are negated; on a mix of
positive and negative nothing changes (warning only, never raising); rows
not flagged as decrease are never modified; and concretely {+5,+3,+2}
becomes {−5,−3,−2}, {−5,−3,−2} stays unchanged, {+5,−3} stays unchanged. -/
theorem C5_flip_sign (rows : List (Bool × Option ℚ)) :
    ((flaggedVals rows).all (fun v => decide (v ≤ 0)) = true →
      flip_sign rows = rows)
    ∧ ((flaggedVals rows).all (fun v => decide (v ≤ 0)) = false →
       (flaggedVals rows).all (fun v => decide (0 ≤ v)) = true →
      flip_sign rows =
        rows.map (fun r => if r.1 then (r.1, r.2.map (fun v => -v)) else r))
    ∧ ((flaggedVals rows).all (fun v => decide (v ≤ 0)) = false →
       (flaggedVals rows).all (fun v => decide (0 ≤ v)) = false →
      flip_sign rows = rows)
    ∧ ((flip_sign rows).length = rows.length)
    ∧ (∀ (k : Nat) (r : Bool × Option ℚ), rows[k]? = some r → r.1 = false →
        (flip_sign rows)[k]? = some r)
    ∧ flip_sign [(true, some 5), (true, some 3), (true, some 2)]
        = [(true, some (-5)), (true, some (-3)), (true, some (-2))]
    ∧ flip_sign [(true, some (-5)), (true, some (-3)), (true, some (-2))]
        = [(true, some (-5)), (true, some (-3)), (true, some (-2))]
    ∧ flip_sign [(true, some 5), (true, some (-3))]
        = [(true, some 5), (true, some (-3))] := by
  refine ⟨?_, ?_, ?_, ?_, ?_, by decide, by decide, by decide⟩
  · intro h; simp [flip_sign, h]
  · intro h1 h2; simp [flip_sign, h1, h2]
  · intro h1 h2; simp [flip_sign, h1, h2]
  · unfold flip_sign
    split
    · rfl
    · split
      · exact List.length_map _ _
      · rfl
  · intro k r hr hflag
    unfold flip_sign
    split
    · exact hr
    · split
      · rw [List.getElem?_map, hr]
        simp [hflag]
      · exact hr

/-- Witness for C5 at the concrete input [(true, some 5)]: the all-≥0 branch
applies and negates the flagged magnitude. -/
theorem C5_flip_sign_witness :
    flip_sign [(true, some 5)] = [(true, some (-5))] := by
  have h := (C5_flip_sign [(true, some 5)]).2.1 (by decide) (by decide)
  rw [h]
  decide

/-- Claim C3, counterexample: `tile_const` raises even when a respondent's
group holds a single *distinct* non-missing value — here respondent 1
reports the value 5 at two waves (one distinct value after deduplication),
which the claim says is within contract, yet `tile_const` raises the
consistency error because the group has two non-missing entries. -/
theorem C3_counterexample :
    (groupVals [((1, 1), some (5 : ℤ)), ((1, 2), some 5)] 1).dedup.length = 1
    ∧ tile_const [((1, 1), some (5 : ℤ)), ((1, 2), some 5)]
        = Except.error naError := by
  constructor
  · rfl
  · rfl

/-- Claim C3 (amended): `tile_const` raises the consistency error if and
only if some respondent group contains more than one non-missing *entry*
(even when the entries hold the same value); otherwise it fills every row of
each respondent's group with the respondent's first (hence unique)
non-missing value, and leaves the rows of a respondent who never reported a
value missing. -/
theorem C3_tile_const_amended (rows : List ((Nat × Nat) × Option ℤ)) :
    (tile_const rows = Except.error naError ↔
      ∃ r ∈ rows, 2 ≤ (groupVals rows r.1.1).length)
    ∧ (∀ out, tile_const rows = Except.ok out →
        out.length = rows.length ∧
        ∀ (k : Nat) (r : (Nat × Nat) × Option ℤ), rows[k]? = some r →
          out[k]? = some (r.1, (groupVals rows r.1.1).head?) ∧
          (∀ v, groupVals rows r.1.1 = [v] →
            (r.1, (groupVals rows r.1.1).head?).2 = some v) ∧
          (groupVals rows r.1.1 = [] →
            (r.1, (groupVals rows r.1.1).head?).2 = none)) := by
  have hany : rows.any
      (fun r => decide (2 ≤ (groupVals rows r.1.1).length)) = true ↔
      ∃ r ∈ rows, 2 ≤ (groupVals rows r.1.1).length := by
    simp [List.any_eq_true]
  constructor
  · constructor
    · intro he
      rw [← hany]
      by_contra hc
      unfold tile_const at he
      rw [if_neg hc] at he
      exact absurd he (by simp)
    · intro hex
      unfold tile_const
      rw [if_pos (hany.mpr hex)]
  · intro out hout
    unfold tile_const at hout
    by_cases hc : rows.any
        (fun r => decide (2 ≤ (groupVals rows r.1.1).length)) = true
    · rw [if_pos hc] at hout
      exact absurd hout (by simp)
    · rw [if_neg hc] at hout
      have hmap : rows.map
          (fun r => (r.1, (groupVals rows r.1.1).head?)) = out := by
        injection hout
      subst hmap
      refine ⟨List.length_map _ _, ?_⟩
      intro k r hr
      refine ⟨?_, ?_, ?_⟩
      · rw [List.getElem?_map, hr]
        rfl
      · intro v hv
        simp [hv]
      · intro hv
        simp [hv]

/-- Witness for C3 (amended): applying the error characterization at the
two-entry group of the counterexample input. -/
theorem C3_tile_const_amended_witness :
    tile_const [((1, 1), some (5 : ℤ)), ((1, 2), some 5)]
      = Except.error naError :=
  (C3_tile_const_amended [((1, 1), some 5), ((1, 2), some 5)]).1.mpr
    (by decide)

/-- Claim C2 (code divergence evaluated): with one row flagged decrease
(`Q31v2 = 3`) at magnitude +5 and one unflagged row at +2, `flip_sign`
flips the full table's `Q31v2part2` column to [−5, +2], but the extract's
`house_price_change` column is assigned the raw input column [+5, +2]
(`importer.py` line 274 reads `df[varname]`, not `df_full[varname]`), so the
extract does not carry the sign-normalized values. -/
theorem C2_house_price_change_raw :
    house_price_cols [(some 3, some 5), (some 1, some 2)]
      = ([some (-5), some 2], [some 5, some 2])
    ∧ ([some (-5), some 2] : List (Option ℚ)) ≠ [some 5, some 2] := by
  constructor
  · rfl
  · decide

/-- Claim C10: the extract flags `working`, `looking_for_job` and
`hh_changed` are total 0/1 indicators; in particular an all-missing raw
response yields 0, never missing. -/
theorem C10_total_flags :
    (∀ a b : Option ℤ, working a b = 0 ∨ working a b = 1)
    ∧ (∀ a : Option ℤ, looking_for_job a = 0 ∨ looking_for_job a = 1)
    ∧ (∀ d : Option ℤ, hh_changed_flag d = 0 ∨ hh_changed_flag d = 1)
    ∧ working none none = 0
    ∧ looking_for_job none = 0
    ∧ hh_changed_flag none = 0 := by
  refine ⟨?_, ?_, ?_, rfl, rfl, rfl⟩
  · intro a b
    unfold working
    split
    · right; rfl
    · left; rfl
  · intro a
    unfold looking_for_job
    split
    · right; rfl
    · left; rfl
  · intro d
    unfold hh_changed_flag
    split
    · right; rfl
    · left; rfl

/-- Claim C9: `num_kids` equals the sum of the four household-composition
sub-counts when all four are non-missing, and is missing whenever at least
one of the four is missing; concretely {1, 2, missing, 0} yields missing and
{1, 2, 0, 0} yields 3. -/
theorem C9_num_kids :
    (∀ a b c d : ℚ,
      num_kids (some a) (some b) (some c) (some d) = some (a + b + c + d))
    ∧ (∀ c2 c3 c4 c5 : Option ℚ,
        (c2 = none ∨ c3 = none ∨ c4 = none ∨ c5 = none) →
        num_kids c2 c3 c4 c5 = none)
    ∧ num_kids (some 1) (some 2) none (some 0) = none
    ∧ num_kids (some 1) (some 2) (some 0) (some 0) = some 3 := by
  refine ⟨?_, ?_,
    by norm_num [num_kids, sum_min_count, List.filterMap_cons,
      List.sum_cons],
    by norm_num [num_kids, sum_min_count, List.filterMap_cons,
      List.sum_cons]⟩
  · intro a b c d
    simp [num_kids, sum_min_count]
    ring
  · intro c2 c3 c4 c5 h
    rcases h with h | h | h | h <;> subst h
    · rcases c3 with _ | x3 <;> rcases c4 with _ | x4 <;>
        rcases c5 with _ | x5 <;> simp [num_kids, sum_min_count]
    · rcases c2 with _ | x2 <;> rcases c4 with _ | x4 <;>
        rcases c5 with _ | x5 <;> simp [num_kids, sum_min_count]
    · rcases c2 with _ | x2 <;> rcases c3 with _ | x3 <;>
        rcases c5 with _ | x5 <;> simp [num_kids, sum_min_count]
    · rcases c2 with _ | x2 <;> rcases c3 with _ | x3 <;>
        rcases c4 with _ | x4 <;> simp [num_kids, sum_min_count]

/-- Witness for C9: the missing-component case applied at the concrete
sub-counts {1, 2, missing, 0}. -/
theorem C9_num_kids_witness :
    num_kids (some 1) (some 2) none (some 0) = none :=
  C9_num_kids.2.1 (some 1) (some 2) none (some 0)
    (Or.inr (Or.inr (Or.inl rfl)))

/-- Claim C7, counterexample: the education ('college') flag does not use a
missing-for-unlisted recode table — for the non-missing education code 9
('Other'), which is not one of the college codes {5, 6, 7, 8}, the flag is
0, not missing (while `self_employed` and `owner` do yield missing for the
unlisted code 9). -/
theorem C7_counterexample :
    college (some 9) = some 0
    ∧ college (some 9) ≠ none
    ∧ self_employed (some 9) = none
    ∧ owner (some 9) = none := by
  refine ⟨rfl, ?_, rfl, rfl⟩
  decide

/-- Claim C7 (amended): `self_employed` (from `Q12new`) and `owner` (from
`Q43`) yield missing for any non-missing raw code absent from their recode
table, and missing input stays missing; the `college` flag is missing only
when `Q36` is missing, and any non-missing code outside {5, 6, 7, 8} —
e.g. 9 ('Other') — yields 0, not missing.  None of the three raises. -/
theorem C7_recode_amended (s o c : ℤ) :
    (s ≠ 1 → s ≠ 2 → self_employed (some s) = none)
    ∧ (o ≠ 1 → o ≠ 2 → o ≠ 3 → owner (some o) = none)
    ∧ (c ≠ 5 → c ≠ 6 → c ≠ 7 → c ≠ 8 → college (some c) = some 0)
    ∧ self_employed none = none
    ∧ owner none = none
    ∧ college none = none := by
  refine ⟨?_, ?_, ?_, rfl, rfl, rfl⟩
  · intro h1 h2
    have e1 : (s == (1 : ℤ)) = false := beq_eq_false_iff_ne.mpr h1
    have e2 : (s == (2 : ℤ)) = false := beq_eq_false_iff_ne.mpr h2
    simp [self_employed, recode, List.lookup, e1, e2]
  · intro h1 h2 h3
    have e1 : (o == (1 : ℤ)) = false := beq_eq_false_iff_ne.mpr h1
    have e2 : (o == (2 : ℤ)) = false := beq_eq_false_iff_ne.mpr h2
    have e3 : (o == (3 : ℤ)) = false := beq_eq_false_iff_ne.mpr h3
    simp [owner, recode, List.lookup, e1, e2, e3]
  · intro h5 h6 h7 h8
    simp [college, h5, h6, h7, h8]

/-- Witness for C7 (amended) at the concrete unlisted code 9 for all three
raw questions. -/
theorem C7_recode_amended_witness :
    self_employed (some 9) = none
    ∧ owner (some 9) = none
    ∧ college (some 9) = some 0 :=
  ⟨(C7_recode_amended 9 9 9).1 (by decide) (by decide),
   (C7_recode_amended 9 9 9).2.1 (by decide) (by decide) (by decide),
   (C7_recode_amended 9 9 9).2.2.1 (by decide) (by decide) (by decide)
     (by decide)⟩

/-- Claim C6 (code divergence evaluated): the fiscal-year rule matches the
claim on the example date 2015-03-15 (assigned 2014) and on mid-month dates
around the June/July boundary, but on the first day of a month
`date - MonthBegin()` rolls back to the *previous* month, so 2015-01-01 is
assigned fiscal year 2015 (claim: January → prior year 2014) and 2015-07-01
is assigned 2014 (claim: July → current year 2015); the assigned year and
the bracket then form the join key of `merge_inc_rank`. -/
theorem C6_fiscal_year_boundary :
    fiscal_year 2015 3 15 = 2014
    ∧ fiscal_year 2015 6 15 = 2014
    ∧ fiscal_year 2015 7 15 = 2015
    ∧ fiscal_year 2015 1 1 = 2015
    ∧ fiscal_year 2015 7 1 = 2014
    ∧ merge_inc_rank [((2015, 3, 15), 7)] [(2014, 7, 40), (2015, 7, 50)]
        = [some 40]
    ∧ merge_inc_rank [((2015, 1, 1), 7)] [(2014, 7, 40), (2015, 7, 50)]
        = [some 50] := by
  refine ⟨?_, ?_, ?_, ?_, ?_, ?_, ?_⟩ <;>
    norm_num [fiscal_year, merge_inc_rank, List.find?]

/-- Claim C1 (code divergence evaluated): for a single respondent with
waves W1..W4, initial composition [3], change flag `D1 = 2` at W3 with new
composition [5], the output is [3], [3], [5], [5] as the claim's scenario
says; but appending a second respondent (id 2) who never reports any
composition, the global forward-fill (`reindex(..., method="ffill")` over
the whole sorted index) hands respondent 2 the composition [5] carried over
from respondent 1's wave-3 update instead of leaving it missing. -/
theorem C1_hh_composition_crosstalk :
    hh_composition
      [⟨1, 1, none, [some 3], [none]⟩,
       ⟨1, 2, some 1, [none], [none]⟩,
       ⟨1, 3, some 2, [none], [some 5]⟩,
       ⟨1, 4, some 1, [none], [none]⟩]
      = [some [3], some [3], some [5], some [5]]
    ∧ hh_composition
      [⟨1, 1, none, [some 3], [none]⟩,
       ⟨1, 2, some 1, [none], [none]⟩,
       ⟨1, 3, some 2, [none], [some 5]⟩,
       ⟨1, 4, some 1, [none], [none]⟩,
       ⟨2, 1, none, [none], [none]⟩,
       ⟨2, 2, none, [none], [none]⟩]
      = [some [3], some [3], some [5], some [5], some [5], some [5]]
    ∧ (∀ r ∈ ([⟨2, 1, none, [none], [none]⟩,
         ⟨2, 2, none, [none], [none]⟩] : List HHRow),
        r.id = 2 ∧ r.Q45new = [none] ∧ r.D2new = [none]) := by
  refine ⟨rfl, rfl, ?_⟩
  intro r hr
  simp only [List.mem_cons, List.not_mem_nil, or_false] at hr
  rcases hr with h | h <;> subst h <;> exact ⟨rfl, rfl, rfl⟩

/-- Claim C4 (code divergence evaluated): on a respondent observed at two
waves who answers every demographic question at wave 1 only, the run
succeeds and the tiled attributes (`Q32`, `Q33`, `Q36`, ...) are identical
across the respondent's rows of the full table, but the race column
`Q35_2` is the raw input column — non-missing at wave 1 and missing at wave
2 — because line 394 concatenates the raw block `d` into `df_full` while
the tiled `races` only feeds the extract's `black` column. -/
theorem C4_q35_not_broadcast :
    ∃ full black,
      process_demo
        [⟨1, 1, some 30, some 1, some 2, some 0, some 1, some 5, some 1⟩,
         ⟨1, 2, none, none, none, none, none, none, none⟩]
        = Except.ok (full, black)
      ∧ full.map (fun r => r.Q32) = [some 30, some 30]
      ∧ full.map (fun r => r.Q33) = [some 1, some 1]
      ∧ full.map (fun r => r.Q36) = [some 5, some 5]
      ∧ full.map (fun r => r.Q35_2) = [some 1, none]
      ∧ full.map (fun r => r.Q35_2) ≠ [some 1, some 1]
      ∧ black = [some 1, some 1] := by
  refine ⟨_, _, rfl, rfl, rfl, rfl, rfl, ?_, rfl⟩
  intro h
  exact absurd h (by decide)

/-- Claim C8: the employment block aborts (`AssertionError`) exactly when
some row holds a non-missing `Q16` while `Q15` is not the job-seeking code
1, or a non-missing `Q19` while `Q15` is not the not-seeking code 2; on
inputs satisfying both conditions the run continues, the columns are copied
verbatim, and the output satisfies the mutual-exclusivity invariant. -/
theorem C8_employment_asserts (rows : List EmpRow) :
    (process_employment rows = Except.ok rows ↔
      ∀ r ∈ rows, (r.Q15 ≠ some 1 → r.Q16 = none)
        ∧ (r.Q15 ≠ some 2 → r.Q19 = none))
    ∧ ((∃ r ∈ rows,
          (r.Q15 ≠ some 1 ∧ r.Q16 ≠ none) ∨ (r.Q15 ≠ some 2 ∧ r.Q19 ≠ none)) →
        ∀ out, process_employment rows ≠ Except.ok out) := by
  have h16 : rows.all (fun r => decide (r.Q15 = some 1 ∨ r.Q16 = none)) = true
      ↔ ∀ r ∈ rows, r.Q15 = some 1 ∨ r.Q16 = none := by
    simp
  have h19 : rows.all (fun r => decide (r.Q15 = some 2 ∨ r.Q19 = none)) = true
      ↔ ∀ r ∈ rows, r.Q15 = some 2 ∨ r.Q19 = none := by
    simp
  constructor
  · constructor
    · intro h r hr
      unfold process_employment at h
      by_cases hA : rows.all
          (fun r => decide (r.Q15 = some 1 ∨ r.Q16 = none)) = true
      · rw [if_pos hA] at h
        by_cases hB : rows.all
            (fun r => decide (r.Q15 = some 2 ∨ r.Q19 = none)) = true
        · refine ⟨fun hne => ?_, fun hne => ?_⟩
          · exact ((h16.mp hA) r hr).resolve_left hne
          · exact ((h19.mp hB) r hr).resolve_left hne
        · rw [if_neg hB] at h
          exact absurd h (by simp)
      · rw [if_neg hA] at h
        exact absurd h (by simp)
    · intro hinv
      have hA : rows.all
          (fun r => decide (r.Q15 = some 1 ∨ r.Q16 = none)) = true := by
        refine h16.mpr (fun r hr => ?_)
        by_cases hq : r.Q15 = some 1
        · exact Or.inl hq
        · exact Or.inr ((hinv r hr).1 hq)
      have hB : rows.all
          (fun r => decide (r.Q15 = some 2 ∨ r.Q19 = none)) = true := by
        refine h19.mpr (fun r hr => ?_)
        by_cases hq : r.Q15 = some 2
        · exact Or.inl hq
        · exact Or.inr ((hinv r hr).2 hq)
      unfold process_employment
      rw [if_pos hA, if_pos hB]
  · rintro ⟨r, hr, hviol⟩ out h
    unfold process_employment at h
    by_cases hA : rows.all
        (fun r => decide (r.Q15 = some 1 ∨ r.Q16 = none)) = true
    · rw [if_pos hA] at h
      by_cases hB : rows.all
          (fun r => decide (r.Q15 = some 2 ∨ r.Q19 = none)) = true
      · rcases hviol with ⟨hne, hq16⟩ | ⟨hne, hq19⟩
        · exact hq16 (((h16.mp hA) r hr).resolve_left hne)
        · exact hq19 (((h19.mp hB) r hr).resolve_left hne)
      · rw [if_neg hB] at h
        exact absurd h (by simp)
    · rw [if_neg hA] at h
      exact absurd h (by simp)

/-- Witness for C8: a two-row input satisfying both invariants passes both
assertions and is returned verbatim. -/
theorem C8_employment_asserts_witness :
    process_employment [⟨some 1, some 3, none⟩, ⟨some 2, none, some 4⟩]
      = Except.ok [⟨some 1, some 3, none⟩, ⟨some 2, none, some 4⟩] :=
  (C8_employment_asserts
    [⟨some 1, some 3, none⟩, ⟨some 2, none, some 4⟩]).1.mpr (by decide)

end SCE
